import Mathlib

/-!
Shallow embedding of `fsocks/tunnel_client.py` (the fSocks tunnel client:
SOCKS5 front-end, session table / multiplexer, handshake driver).

The asyncio methods of `TunnelClient` are embedded as pure step functions on
an explicit `ClientState`; each observable side effect (a write to the tunnel,
a write to a local user connection, a transport abort, a process exit) becomes
an element of an event list `Ev`.  Fallible code returns `Except String`.

The repository ships only `tunnel_client.py` and `server.py`; the helper
modules `protocol`, `socks`, `cryption`, `fuzzing` are carriers whose shapes
are modelled from the spec (packet kinds table, SOCKS message fields) and from
how `tunnel_client.py` uses them.
-/

/-- Bytes as lists of naturals (values mod 256 are irrelevant to the claims). -/
abbrev Bytes := List Nat

/-- Modelled from the spec: the SOCKS message (`socks.Message` is not in the
sources; fields follow spec section 4.5 and the uses in `tunnel_client.py`):
version, command/reply code, address type, (host, port) address. -/
structure SocksMsg where
  ver : Nat
  code : Nat
  atype : Nat
  addr : String × Nat
  deriving Repr, DecidableEq

/-- `socks.CMD.CONNECT` (standard SOCKS5 value). -/
def CMD.CONNECT : Nat := 1

/-- `socks.REP.COMMAND_NOT_SUPPORTED` (standard SOCKS5 value). -/
def REP.COMMAND_NOT_SUPPORTED : Nat := 7

/-- `socks.VER.SOCKS5`. -/
def VER.SOCKS5 : Nat := 5

/-- `socks.ATYPE.IPV4`. -/
def ATYPE.IPV4 : Nat := 1

/-- Modelled from the spec: serialization of a SOCKS message
(`Message.to_bytes` is not in the sources; header fields then address). -/
def SocksMsg.toBytes (m : SocksMsg) : Bytes :=
  [m.ver, m.code, 0, m.atype] ++ (m.addr.1.toList.map Char.toNat)
    ++ [m.addr.2 / 256, m.addr.2 % 256]

/-- Modelled from the spec: the server greeting "no authentication required"
(`socks.ServerGreeting().to_bytes()`). -/
def serverGreetingBytes : Bytes := [5, 0]

/-- Modelled from the spec (section 3 packet table, and field uses in
`tunnel_client.py`): the tagged union of tunnel packet kinds.  The fuzz
parameters are abstracted as a `Nat`; in the client's own `HandShake` the
fuzz field is absent (`none`). -/
inductive Packet where
  | hello (timestamp : Nat)
  | handShake (timestamp : Nat) (fuzz : Option Nat)
  | request (src dst : Nat) (msg : SocksMsg)
  | reply (src dst : Nat) (msg : SocksMsg)
  | relaying (src dst : Nat) (payload : Bytes)
  | close (src : Nat)
  deriving Repr, DecidableEq

/-- The key a frame is wrapped with on the wire: the bootstrap cipher
(`self.cipher`, AES-256-CBC from the password) or the fuzz parameters
(`self.fuzz`, `none` before the handshake installs them). -/
inductive WireKey where
  | cipher
  | fuzzParams (f : Option Nat)
  deriving Repr, DecidableEq

/-- Observable events of the client. -/
inductive Ev where
  | tunnelWrite (p : Packet) (k : WireKey)
  | tunnelRead (k : WireKey)
  | userWrite (uid : Nat) (data : Bytes)
  | abortTransport (uid : Nat)
  | exitProcess (code : Nat)
  | listenStart
  deriving Repr, DecidableEq

/-- `User` of `tunnel_client.py`: one record per local connection.
`userId` is the accept-time id (`writer.transport._sock_fd`),
`remoteId` is `None` until a Reply packet assigns it. -/
structure User where
  userId : Nat
  remoteId : Option Nat
  deriving Repr, DecidableEq

/-- `User.established`: `self.remote_id is not None`. -/
def User.established (u : User) : Bool := u.remoteId.isSome

/-- `User.close`: reset `remote_id` to `None` and abort the transport. -/
def User.closeUser (u : User) : User × List Ev :=
  ({ u with remoteId := none }, [Ev.abortTransport u.userId])

/-- State of `TunnelClient`: the session table `self.users`
(an association list `user_id -> User`), the negotiated fuzz parameters
`self.fuzz`, and whether the SOCKS5 listener has been started. -/
structure ClientState where
  users : List (Nat × User)
  fuzz : Option Nat
  listening : Bool
  deriving Repr, DecidableEq

/-- Initial state (`TunnelClient.__init__`): empty table, no fuzz yet,
no listener. -/
def ClientState.init : ClientState :=
  { users := [], fuzz := none, listening := false }

/-- `TunnelClient._get_user`: `self.users.get(user_id, None)`. -/
def getUser (s : ClientState) (uid : Nat) : Option User :=
  s.users.lookup uid

/-- Overwrite the table entry for `uid` (mutation of the shared `User`
object, visible through the table). -/
def setUser (s : ClientState) (uid : Nat) (u : User) : ClientState :=
  { s with users := s.users.map (fun p => if p.1 = uid then (uid, u) else p) }

/-- Remove the table entry for `uid` (`del self.users[user_id]`). -/
def removeUser (s : ClientState) (uid : Nat) : ClientState :=
  { s with users := s.users.filter (fun p => p.1 ≠ uid) }

/-- Outcome of awaiting `writer.drain()` inside `safe_write`. -/
inductive WriteOutcome where
  | ok
  | connectionReset
  | otherError
  deriving Repr, DecidableEq

/-- `TunnelClient.safe_write`: write the data, await the drain; a
`ConnectionResetError` from the drain is caught and logged, so the call
returns normally; any other exception propagates. -/
def safeWrite (o : WriteOutcome) (ev : Ev) : Except String (List Ev) :=
  match o with
  | .ok => .ok [ev]
  | .connectionReset => .ok [ev]
  | .otherError => .error "write failed"

/-- `TunnelClient._accept_user`: allocate the `User` record and register it
in the session table (the task is started at this point as well). -/
def acceptUser (s : ClientState) (uid : Nat) : ClientState × User :=
  let u : User := { userId := uid, remoteId := none }
  ({ s with users := (uid, u) :: s.users.filter (fun p => p.1 ≠ uid) }, u)

/-- `TunnelClient._user_closed`: if the user is established, write a Close
packet (src = user_id) to the tunnel under `self.fuzz`; then abort the
user's transport.  The session table is not touched. -/
def userClosed (s : ClientState) (u : User) : ClientState × List Ev :=
  (s,
    (if u.established then
      [Ev.tunnelWrite (.close u.userId) (.fuzzParams s.fuzz)]
     else []) ++ [Ev.abortTransport u.userId])

/-- `TunnelClient._delete_user`: `user.close()`, then remove the entry from
the table if present.  Returns the mutated `User` object (shared with the
session's own task). -/
def deleteUser (s : ClientState) (u : User) : ClientState × User × List Ev :=
  let (u2, evs) := u.closeUser
  (removeUser s u.userId, u2, evs)

/-- One iteration of `TunnelClient._handle_tunnel` on one decoded packet.
`drain` gives the outcome of `writer.drain()` per user id.  Reply: look up
by `dst`; unknown id: silently continue; otherwise forward the inner SOCKS
reply to the user and set `remote_id = packet.src`.  Relaying: look up by
`dst`; unknown id: continue; otherwise write the payload to the user.
Close: look up by `src`; unknown id: continue; otherwise `_delete_user`.
Other kinds are logged and ignored. -/
def handleTunnelPacket (drain : Nat → WriteOutcome) (s : ClientState)
    (p : Packet) : Except String (ClientState × List Ev) :=
  match p with
  | .reply src dst msg =>
      match getUser s dst with
      | none => .ok (s, [])
      | some u =>
          match safeWrite (drain dst) (Ev.userWrite dst msg.toBytes) with
          | .error e => .error e
          | .ok evs => .ok (setUser s dst { u with remoteId := some src }, evs)
  | .relaying _ dst payload =>
      match getUser s dst with
      | none => .ok (s, [])
      | some _ =>
          match safeWrite (drain dst) (Ev.userWrite dst payload) with
          | .error e => .error e
          | .ok evs => .ok (s, evs)
  | .close src =>
      match getUser s src with
      | none => .ok (s, [])
      | some u =>
          let (s2, _, evs) := deleteUser s u
          .ok (s2, evs)
  | _ => .ok (s, [])

/-- The `_handle_tunnel` loop over a list of decoded inbound packets;
each iteration first reads a frame under `self.fuzz`, then dispatches. -/
def handleTunnel (drain : Nat → WriteOutcome) (s : ClientState) :
    List Packet → Except String (ClientState × List Ev)
  | [] => .ok (s, [])
  | p :: rest =>
      match handleTunnelPacket drain s p with
      | .error e => .error e
      | .ok (s2, evs) =>
          match handleTunnel drain s2 rest with
          | .error e => .error e
          | .ok (s3, evs2) =>
              .ok (s3, Ev.tunnelRead (.fuzzParams s.fuzz) :: evs ++ evs2)

/-- Outcome of `await user.reader.read(2048)` in `_pipe_user`:
either data (possibly empty at end-of-stream) or a `ConnectionResetError`
(caught, treated as empty data). -/
inductive ReadResult where
  | bytes (data : Bytes)
  | connReset
  deriving Repr, DecidableEq

/-- The data `_pipe_user` ends up with after its try/except around the
read: a connection reset yields `b''`. -/
def ReadResult.data : ReadResult → Bytes
  | .bytes d => d
  | .connReset => []

/-- One iteration of the `_pipe_user` loop.  Empty data: `_user_closed`
and break (`Bool` result `false`).  Otherwise `assert user.established`
(an unset `remote_id` raises `AssertionError`), then build the Relaying
packet `(src=user_id, dst=remote_id)` and `safe_write` it to the tunnel
under `self.fuzz`. -/
def pipeUserStep (tunnelDrain : WriteOutcome) (s : ClientState) (u : User)
    (r : ReadResult) : Except String (ClientState × List Ev × Bool) :=
  if r.data = [] then
    let (s2, evs) := userClosed s u
    .ok (s2, evs, false)
  else
    match u.remoteId with
    | none => .error "AssertionError: user.established"
    | some rid =>
        match safeWrite tunnelDrain
          (Ev.tunnelWrite (.relaying u.userId rid r.data) (.fuzzParams s.fuzz)) with
        | .error e => .error e
        | .ok evs => .ok (s, evs, true)

/-- The `_pipe_user` loop over a list of local reads; stops at the first
iteration that breaks. -/
def pipeUser (tunnelDrain : WriteOutcome) (s : ClientState) (u : User) :
    List ReadResult → Except String (ClientState × List Ev)
  | [] => .ok (s, [])
  | r :: rest =>
      match pipeUserStep tunnelDrain s u r with
      | .error e => .error e
      | .ok (s2, evs, cont) =>
          if cont then
            match pipeUser tunnelDrain s2 u rest with
            | .error e => .error e
            | .ok (s3, evs2) => .ok (s3, evs ++ evs2)
          else
            .ok (s2, evs)

/-- Outcome of `socks.Message.from_reader` in `_handle_user`: the parsed
request, or an `IncompleteReadError`. -/
inductive ParseResult where
  | incomplete
  | msg (m : SocksMsg)
  deriving Repr, DecidableEq

/-- The COMMAND_NOT_SUPPORTED reply built in `_handle_user`. -/
def repNotSupported : SocksMsg :=
  { ver := VER.SOCKS5, code := REP.COMMAND_NOT_SUPPORTED,
    atype := ATYPE.IPV4, addr := ("0", 0) }

/-- `TunnelClient._handle_user`: discard the greeting, send the no-auth
server greeting, then dispatch on the parsed request.  IncompleteReadError:
`_delete_user` and return.  Non-CONNECT command: send COMMAND_NOT_SUPPORTED
to the user and return (nothing else happens).  CONNECT: send a Request
packet `(src=user_id, dst=0)` over the tunnel under `self.fuzz`, then run
`_pipe_user`. -/
def handleUser (tunnelDrain : WriteOutcome) (s : ClientState) (u : User)
    (pr : ParseResult) (reads : List ReadResult) :
    Except String (ClientState × List Ev) :=
  let greet := [Ev.userWrite u.userId serverGreetingBytes]
  match pr with
  | .incomplete =>
      let (s2, _, evs) := deleteUser s u
      .ok (s2, greet ++ evs)
  | .msg m =>
      if m.code ≠ CMD.CONNECT then
        .ok (s, greet ++ [Ev.userWrite u.userId repNotSupported.toBytes])
      else
        match safeWrite tunnelDrain
          (Ev.tunnelWrite (.request u.userId 0 m) (.fuzzParams s.fuzz)) with
        | .error e => .error e
        | .ok evs =>
            match pipeUser tunnelDrain s u reads with
            | .error e => .error e
            | .ok (s2, evs2) => .ok (s2, greet ++ evs ++ evs2)

/-- The packet attribute `hello_response.timestamp`
(an `AttributeError` when the packet kind has no timestamp field). -/
def Packet.timestampOf : Packet → Except String Nat
  | .hello t => .ok t
  | .handShake t _ => .ok t
  | _ => .error "AttributeError: timestamp"

/-- The packet attribute `shake_response.fuzz`. -/
def Packet.fuzzOf : Packet → Except String (Option Nat)
  | .handShake _ f => .ok f
  | _ => .error "AttributeError: fuzz"

/-- Modelled from the spec: `protocol.Hello()` carries an optional
nonce/seed chosen by the constructor; its value is irrelevant here. -/
def helloDefault : Packet := .hello 0

/-- `TunnelClient.start_tunnel`, given the two packets the server answers
with.  Sends Hello under the bootstrap cipher, reads a response under the
bootstrap cipher, sends a HandShake echoing `hello_response.timestamp`
under the bootstrap cipher, reads the final HandShake under the bootstrap
cipher, then installs `self.fuzz = shake_response.fuzz` and starts the
`_handle_tunnel` task.  On error the events emitted so far accompany the
exception. -/
def startTunnel (s : ClientState) (resp1 resp2 : Packet) :
    Except (String × List Ev) (ClientState × List Ev) :=
  let evs1 := [Ev.tunnelWrite helloDefault .cipher, Ev.tunnelRead .cipher]
  match resp1.timestampOf with
  | .error e => .error (e, evs1)
  | .ok ts =>
      let evs2 := evs1 ++
        [Ev.tunnelWrite (.handShake ts none) .cipher, Ev.tunnelRead .cipher]
      match resp2.fuzzOf with
      | .error e => .error (e, evs2)
      | .ok f => .ok ({ s with fuzz := f }, evs2)

/-- Modelled from the spec: `sys.exit` terminates the process, so every
session task dies with it; the state after a process exit has no live
session. -/
def processExit (code : Nat) (s : ClientState) : ClientState × List Ev :=
  ({ s with users := [], listening := false }, [Ev.exitProcess code])

/-- The `tunnel_done` callback installed on the `_handle_tunnel` task:
when the tunnel task terminates (read error, end-of-stream, decode
failure), the whole process exits with status 2. -/
def tunnelDone (s : ClientState) : ClientState × List Ev :=
  processExit 2 s

/-- `TunnelClient.start`: run `start_tunnel`; any exception there (the
connection failing counts, modelled by `netOk = false`) is caught and the
process exits with status 1; only when it succeeded is the SOCKS5 listener
started. -/
def start (netOk : Bool) (s : ClientState) (resp1 resp2 : Packet) :
    ClientState × List Ev :=
  if netOk then
    match startTunnel s resp1 resp2 with
    | .ok (s2, evs) => ({ s2 with listening := true }, evs ++ [Ev.listenStart])
    | .error (_, evs) =>
        let (s2, evs2) := processExit 1 s
        (s2, evs ++ evs2)
  else
    let (s2, evs2) := processExit 1 s
    (s2, evs2)

/-- Script of one accepted local connection: its id, the parse outcome of
its SOCKS request, and the subsequent local reads. -/
structure UserScript where
  uid : Nat
  pr : ParseResult
  reads : List ReadResult

/-- Accepted local connections are handled only while the listener runs;
a session task that dies with an exception stops contributing events. -/
def processUsers (tunnelDrain : WriteOutcome) :
    ClientState → List UserScript → ClientState × List Ev
  | s, [] => (s, [])
  | s, sc :: rest =>
      let (s2, u) := acceptUser s sc.uid
      match handleUser tunnelDrain s2 u sc.pr sc.reads with
      | .ok (s3, evs) =>
          let (s4, evs2) := processUsers tunnelDrain s3 rest
          (s4, evs ++ evs2)
      | .error _ =>
          let (s4, evs2) := processUsers tunnelDrain s2 rest
          (s4, evs2)

/-- A whole client run: `start`, then, only if the listener is up, the
accepted local connections. -/
def runClient (netOk : Bool) (tunnelDrain : WriteOutcome) (s : ClientState)
    (resp1 resp2 : Packet) (scripts : List UserScript) : ClientState × List Ev :=
  let (s1, evs) := start netOk s resp1 resp2
  if s1.listening then
    let (s2, evs2) := processUsers tunnelDrain s1 scripts
    (s2, evs ++ evs2)
  else
    (s1, evs)

/-- A user-session packet: Request, Reply, Relaying or Close (not part of
the handshake). -/
def Packet.isSessionPkt : Packet → Bool
  | .request _ _ _ => true
  | .reply _ _ _ => true
  | .relaying _ _ _ => true
  | .close _ => true
  | _ => false

/-- An event that puts a user-session packet on the tunnel. -/
def Ev.isSessionWrite : Ev → Bool
  | .tunnelWrite p _ => p.isSessionPkt
  | _ => false

/-- An event on the tunnel connection (a frame written or read). -/
def Ev.isTunnelEv : Ev → Bool
  | .tunnelWrite _ _ => true
  | .tunnelRead _ => true
  | _ => false

/-- The event, if it touches the tunnel, does so under the fuzz
parameters `f`. -/
def Ev.usesKey (f : Option Nat) : Ev → Bool
  | .tunnelWrite _ k => k == .fuzzParams f
  | .tunnelRead k => k == .fuzzParams f
  | _ => true

/-- The session id an inbound Reply/Relaying/Close packet refers to
(`dst` for Reply/Relaying, `src` for Close). -/
def Packet.refId : Packet → Option Nat
  | .reply _ dst _ => some dst
  | .relaying _ dst _ => some dst
  | .close src => some src
  | _ => none

/-- A client state holding one established session (id 7, remote id 9),
after the handshake installed fuzz parameters 1. -/
def sEst : ClientState :=
  { users := [(7, { userId := 7, remoteId := some 9 })], fuzz := some 1,
    listening := true }

/-- A sample SOCKS reply message. -/
def mEx : SocksMsg := { ver := 5, code := 0, atype := 1, addr := ("0", 0) }

/-- A SOCKS request carrying the BIND command (code 2), not CONNECT. -/
def mBind : SocksMsg := { ver := 5, code := 2, atype := 1, addr := ("h", 80) }

/-- A client state holding one session (id 7) whose `remote_id` was set to
5 by an earlier Reply. -/
def sReplied : ClientState :=
  { users := [(7, { userId := 7, remoteId := some 5 })], fuzz := some 1,
    listening := true }

/-- The state right after the front-end accepted local connection 3
(post-handshake, fuzz parameters 1). -/
def sAccepted : ClientState :=
  (acceptUser { users := [], fuzz := some 1, listening := true } 3).1

theorem usesKey_of_not_tunnel (f : Option Nat) (e : Ev)
    (h : e.isTunnelEv = false) : e.usesKey f = true := by
  cases e <;> simp_all [Ev.isTunnelEv, Ev.usesKey]

/-- `handleTunnelPacket` never changes `self.fuzz`. -/
theorem handleTunnelPacket_fuzz (drain : Nat → WriteOutcome)
    (s : ClientState) (p : Packet) (out : ClientState × List Ev)
    (h : handleTunnelPacket drain s p = .ok out) : out.1.fuzz = s.fuzz := by
  cases p with
  | reply src dst msg =>
      cases hg : getUser s dst with
      | none => simp [handleTunnelPacket, hg] at h; simp [← h]
      | some u =>
          cases hd : drain dst <;>
            simp [handleTunnelPacket, hg, safeWrite, hd] at h <;>
            simp [← h, setUser]
  | relaying src dst payload =>
      cases hg : getUser s dst with
      | none => simp [handleTunnelPacket, hg] at h; simp [← h]
      | some u =>
          cases hd : drain dst <;>
            simp [handleTunnelPacket, hg, safeWrite, hd] at h <;>
            simp [← h]
  | close src =>
      cases hg : getUser s src with
      | none => simp [handleTunnelPacket, hg] at h; simp [← h]
      | some u =>
          simp [handleTunnelPacket, hg, deleteUser, User.closeUser] at h
          simp [← h, removeUser]
  | hello t => simp [handleTunnelPacket] at h; simp [← h]
  | handShake t f => simp [handleTunnelPacket] at h; simp [← h]
  | request src dst msg => simp [handleTunnelPacket] at h; simp [← h]

/-- Events dispatched by `handleTunnelPacket` never touch the tunnel
connection itself (they write to users or abort transports). -/
theorem handleTunnelPacket_no_tunnel_ev (drain : Nat → WriteOutcome)
    (s : ClientState) (p : Packet) (out : ClientState × List Ev)
    (h : handleTunnelPacket drain s p = .ok out) :
    ∀ e ∈ out.2, e.isTunnelEv = false := by
  cases p with
  | reply src dst msg =>
      cases hg : getUser s dst with
      | none => simp [handleTunnelPacket, hg] at h; simp [← h]
      | some u =>
          cases hd : drain dst <;>
            simp [handleTunnelPacket, hg, safeWrite, hd] at h <;>
            simp [← h, Ev.isTunnelEv]
  | relaying src dst payload =>
      cases hg : getUser s dst with
      | none => simp [handleTunnelPacket, hg] at h; simp [← h]
      | some u =>
          cases hd : drain dst <;>
            simp [handleTunnelPacket, hg, safeWrite, hd] at h <;>
            simp [← h, Ev.isTunnelEv]
  | close src =>
      cases hg : getUser s src with
      | none => simp [handleTunnelPacket, hg] at h; simp [← h]
      | some u =>
          simp [handleTunnelPacket, hg, deleteUser, User.closeUser] at h
          simp [← h, Ev.isTunnelEv]
  | hello t => simp [handleTunnelPacket] at h; simp [← h]
  | handShake t f => simp [handleTunnelPacket] at h; simp [← h]
  | request src dst msg => simp [handleTunnelPacket] at h; simp [← h]

/-- Every event of the `_handle_tunnel` loop run on a state whose fuzz
parameters are `f` uses `f` wherever it touches the tunnel (the per-frame
reads are done under `self.fuzz`). -/
theorem handleTunnel_usesKey (drain : Nat → WriteOutcome) (f : Option Nat) :
    ∀ (ps : List Packet) (s : ClientState) (out : ClientState × List Ev),
      s.fuzz = f → handleTunnel drain s ps = .ok out →
      ∀ e ∈ out.2, e.usesKey f = true := by
  intro ps
  induction ps with
  | nil =>
      intro s out hf h e he
      simp [handleTunnel] at h
      rw [← h] at he
      simp at he
  | cons p rest ih =>
      intro s out hf h e he
      cases h1 : handleTunnelPacket drain s p with
      | error err => simp [handleTunnel, h1] at h
      | ok o1 =>
          obtain ⟨s2, evs⟩ := o1
          cases h2 : handleTunnel drain s2 rest with
          | error err => simp [handleTunnel, h1, h2] at h
          | ok o2 =>
              obtain ⟨s3, evs2⟩ := o2
              simp [handleTunnel, h1, h2] at h
              rw [← h] at he
              simp at he
              rcases he with he | he | he
              · rw [he]; simp [Ev.usesKey, hf]
              · exact usesKey_of_not_tunnel f e
                  (handleTunnelPacket_no_tunnel_ev drain s p (s2, evs) h1 e he)
              · exact ih s2 (s3, evs2)
                  (by rw [handleTunnelPacket_fuzz drain s p (s2, evs) h1]; exact hf)
                  h2 e he

/-- `pipeUserStep` leaves the client state unchanged. -/
theorem pipeUserStep_state (td : WriteOutcome) (s : ClientState) (u : User)
    (r : ReadResult) (out : ClientState × List Ev × Bool)
    (h : pipeUserStep td s u r = .ok out) : out.1 = s := by
  by_cases hd : r.data = []
  · simp [pipeUserStep, hd, userClosed] at h; simp [← h]
  · cases hr : u.remoteId with
    | none => simp [pipeUserStep, hd, hr] at h
    | some rid =>
        cases td <;> simp [pipeUserStep, hd, hr, safeWrite] at h <;> simp [← h]

/-- Every event of one `_pipe_user` iteration uses the state's fuzz
parameters wherever it touches the tunnel. -/
theorem pipeUserStep_usesKey (td : WriteOutcome) (s : ClientState) (u : User)
    (r : ReadResult) (out : ClientState × List Ev × Bool)
    (h : pipeUserStep td s u r = .ok out) :
    ∀ e ∈ out.2.1, e.usesKey s.fuzz = true := by
  by_cases hd : r.data = []
  · simp [pipeUserStep, hd, userClosed] at h
    rw [← h]
    intro e he
    cases hu : u.established <;> simp [hu] at he
    · rw [he]; simp [Ev.usesKey]
    · rcases he with he | he <;> rw [he] <;> simp [Ev.usesKey]
  · cases hr : u.remoteId with
    | none => simp [pipeUserStep, hd, hr] at h
    | some rid =>
        cases td <;> simp [pipeUserStep, hd, hr, safeWrite] at h <;>
          rw [← h] <;> intro e he <;> simp at he <;>
          rw [he] <;> simp [Ev.usesKey]

/-- Every event of the `_pipe_user` loop uses the state's fuzz parameters
wherever it touches the tunnel. -/
theorem pipeUser_usesKey (td : WriteOutcome) (u : User) :
    ∀ (rs : List ReadResult) (s : ClientState) (out : ClientState × List Ev),
      pipeUser td s u rs = .ok out → ∀ e ∈ out.2, e.usesKey s.fuzz = true := by
  intro rs
  induction rs with
  | nil =>
      intro s out h e he
      simp [pipeUser] at h
      rw [← h] at he
      simp at he
  | cons r rest ih =>
      intro s out h e he
      cases h1 : pipeUserStep td s u r with
      | error err => simp [pipeUser, h1] at h
      | ok o1 =>
          obtain ⟨s2, evs, cont⟩ := o1
          have hs2 : s2 = s := pipeUserStep_state td s u r (s2, evs, cont) h1
          cases cont with
          | false =>
              simp [pipeUser, h1] at h
              rw [← h] at he
              exact pipeUserStep_usesKey td s u r (s2, evs, false) h1 e he
          | true =>
              cases h2 : pipeUser td s2 u rest with
              | error err => simp [pipeUser, h1, h2] at h
              | ok o2 =>
                  obtain ⟨s3, evs2⟩ := o2
                  simp [pipeUser, h1, h2] at h
                  rw [← h] at he
                  simp at he
                  rcases he with he | he
                  · exact pipeUserStep_usesKey td s u r (s2, evs, true) h1 e he
                  · have := ih s2 (s3, evs2) h2 e he
                    rw [hs2] at this
                    exact this

/-- Every event of `_user_closed` uses the state's fuzz parameters
wherever it touches the tunnel. -/
theorem userClosed_usesKey (s : ClientState) (u : User) :
    ∀ e ∈ (userClosed s u).2, e.usesKey s.fuzz = true := by
  intro e he
  simp [userClosed] at he
  cases hu : u.established <;> simp [hu] at he
  · rw [he]; simp [Ev.usesKey]
  · rcases he with he | he <;> rw [he] <;> simp [Ev.usesKey]

/-- Every event of `_handle_user` uses the state's fuzz parameters
wherever it touches the tunnel. -/
theorem handleUser_usesKey (td : WriteOutcome) (s : ClientState) (u : User)
    (pr : ParseResult) (rs : List ReadResult) (out : ClientState × List Ev)
    (h : handleUser td s u pr rs = .ok out) :
    ∀ e ∈ out.2, e.usesKey s.fuzz = true := by
  intro e he
  cases pr with
  | incomplete =>
      simp [handleUser, deleteUser, User.closeUser] at h
      rw [← h] at he
      simp at he
      rcases he with he | he <;> rw [he] <;> simp [Ev.usesKey]
  | msg m =>
      by_cases hm : m.code = CMD.CONNECT
      · cases td with
        | otherError => simp [handleUser, hm, safeWrite] at h
        | ok =>
            cases h2 : pipeUser .ok s u rs with
            | error err => simp [handleUser, hm, safeWrite, h2] at h
            | ok o2 =>
                obtain ⟨s2, evs2⟩ := o2
                simp [handleUser, hm, safeWrite, h2] at h
                rw [← h] at he
                simp at he
                rcases he with he | he | he
                · rw [he]; simp [Ev.usesKey]
                · rw [he]; simp [Ev.usesKey]
                · exact pipeUser_usesKey .ok u rs s (s2, evs2) h2 e he
        | connectionReset =>
            cases h2 : pipeUser .connectionReset s u rs with
            | error err => simp [handleUser, hm, safeWrite, h2] at h
            | ok o2 =>
                obtain ⟨s2, evs2⟩ := o2
                simp [handleUser, hm, safeWrite, h2] at h
                rw [← h] at he
                simp at he
                rcases he with he | he | he
                · rw [he]; simp [Ev.usesKey]
                · rw [he]; simp [Ev.usesKey]
                · exact pipeUser_usesKey .connectionReset u rs s (s2, evs2) h2 e he
      · simp [handleUser, hm] at h
        rw [← h] at he
        simp at he
        rcases he with he | he <;> rw [he] <;> simp [Ev.usesKey]

/-- C1: `start_tunnel` performs exactly the two-step negotiation in order:
it sends a Hello under the bootstrap cipher, reads a response, sends a
HandShake echoing that response's timestamp still under the bootstrap
cipher, reads the server's final HandShake, and only then installs the
received fuzz parameters; afterwards every tunnel operation (the
`_handle_tunnel` reads and every write in `_pipe_user`, `_user_closed`
and `_handle_user`) uses the negotiated fuzz parameters, not the
bootstrap cipher. -/
theorem startTunnel_negotiation_then_fuzz
    (s : ClientState) (r1 : Packet) (t1 t2 f : Nat)
    (h1 : r1.timestampOf = .ok t1) :
    startTunnel s r1 (.handShake t2 (some f)) =
      .ok ({ s with fuzz := some f },
        [Ev.tunnelWrite helloDefault .cipher, Ev.tunnelRead .cipher,
         Ev.tunnelWrite (.handShake t1 none) .cipher, Ev.tunnelRead .cipher])
    ∧ ({ s with fuzz := some f } : ClientState).fuzz = some f
    ∧ (∀ drain ps out, handleTunnel drain { s with fuzz := some f } ps = .ok out →
        ∀ e ∈ out.2, e.usesKey (some f) = true)
    ∧ (∀ td u rs out, pipeUser td { s with fuzz := some f } u rs = .ok out →
        ∀ e ∈ out.2, e.usesKey (some f) = true)
    ∧ (∀ u, ∀ e ∈ (userClosed { s with fuzz := some f } u).2,
        e.usesKey (some f) = true)
    ∧ (∀ td u pr rs out, handleUser td { s with fuzz := some f } u pr rs = .ok out →
        ∀ e ∈ out.2, e.usesKey (some f) = true) := by
  refine ⟨?_, rfl, ?_, ?_, ?_, ?_⟩
  · simp [startTunnel, h1, Packet.fuzzOf]
  · intro drain ps out h
    exact handleTunnel_usesKey drain (some f) ps _ out rfl h
  · intro td u rs out h e he
    exact pipeUser_usesKey td u rs _ out h e he
  · intro u e he
    exact userClosed_usesKey { s with fuzz := some f } u e he
  · intro td u pr rs out h e he
    exact handleUser_usesKey td _ u pr rs out h e he

/-- Witness for C1 at a concrete negotiation (`Hello` response stamped 7,
final `HandShake` carrying fuzz parameters 42). -/
theorem startTunnel_negotiation_then_fuzz_witness :
    startTunnel ClientState.init (.hello 7) (.handShake 3 (some 42)) =
      .ok ({ ClientState.init with fuzz := some 42 },
        [Ev.tunnelWrite helloDefault .cipher, Ev.tunnelRead .cipher,
         Ev.tunnelWrite (.handShake 7 none) .cipher, Ev.tunnelRead .cipher]) :=
  (startTunnel_negotiation_then_fuzz ClientState.init (.hello 7) 7 3 42 rfl).1

/-- C2: an inbound Reply, Relaying or Close packet whose referenced
session id is not in the session table is dropped silently: no exception,
no outbound packet, and the state — the table and every session record in
it — is unchanged. -/
theorem unknown_id_dropped (drain : Nat → WriteOutcome) (s : ClientState)
    (p : Packet) (i : Nat) (href : p.refId = some i)
    (hu : getUser s i = none) :
    handleTunnelPacket drain s p = .ok (s, []) := by
  cases p with
  | reply src dst msg =>
      simp [Packet.refId] at href
      subst href
      simp [handleTunnelPacket, hu]
  | relaying src dst payload =>
      simp [Packet.refId] at href
      subst href
      simp [handleTunnelPacket, hu]
  | close src =>
      simp [Packet.refId] at href
      subst href
      simp [handleTunnelPacket, hu]
  | hello t => simp [Packet.refId] at href
  | handShake t f => simp [Packet.refId] at href
  | request src dst msg => simp [Packet.refId] at href

/-- Witness for C2: a Close for unknown id 5 on the established-session
state is a no-op. -/
theorem unknown_id_dropped_witness :
    handleTunnelPacket (fun _ => .ok) sEst (.close 5) = .ok (sEst, []) :=
  unknown_id_dropped (fun _ => .ok) sEst (.close 5) 5 rfl rfl

/-- C3 counterexample: an established session (id 7) whose local side
reaches end-of-stream: `_pipe_user` calls `_user_closed`, which emits the
Close packet and aborts the transport — but the session is NOT removed
from the session table: the returned state is the input state and entry 7
is still present, contradicting the claim that the session is removed. -/
theorem userClosed_keeps_entry_counterexample :
    pipeUserStep .ok sEst { userId := 7, remoteId := some 9 } (.bytes []) =
      .ok (sEst,
        [Ev.tunnelWrite (.close 7) (.fuzzParams (some 1)),
         Ev.abortTransport 7], false)
    ∧ getUser sEst 7 = some { userId := 7, remoteId := some 9 } := by
  constructor <;> rfl

/-- C3 (amended): when a session's local side ends or errs, `_user_closed`
emits a Close packet with src = session id exactly when the session had
reached established, and aborts the transport; in neither case is the
session removed from the session table — the state, table included, is
returned unchanged (the entry is only removed by a remote Close or by an
incomplete SOCKS parse). -/
theorem userClosed_close_iff_established (td : WriteOutcome)
    (s : ClientState) (u : User) (r : ReadResult) (hr : r.data = []) :
    pipeUserStep td s u r =
      .ok (s,
        (if u.established then
          [Ev.tunnelWrite (.close u.userId) (.fuzzParams s.fuzz)]
         else []) ++ [Ev.abortTransport u.userId], false) := by
  simp [pipeUserStep, hr, userClosed]

/-- Witness for the amended C3: a never-established session (id 3) whose
peer resets; only the transport abort happens, no Close is sent. -/
theorem userClosed_close_iff_established_witness :
    pipeUserStep .ok ClientState.init { userId := 3, remoteId := none }
      .connReset = .ok (ClientState.init, [Ev.abortTransport 3], false) := by
  have h := userClosed_close_iff_established .ok ClientState.init
    { userId := 3, remoteId := none } .connReset rfl
  simpa [User.established] using h

/-- C4 counterexample: session 7's `remote_id` was already set (to 5, by
an earlier Reply); a second Reply with src = 9 overwrites it to 9, and
`User.close` resets an assigned `remote_id` back to `None` — so
`remote_id` is neither set at most once nor immutable once set. -/
theorem remoteId_changes_counterexample :
    getUser sReplied 7 = some { userId := 7, remoteId := some 5 }
    ∧ handleTunnelPacket (fun _ => .ok) sReplied (.reply 9 7 mEx) =
        .ok ({ users := [(7, { userId := 7, remoteId := some 9 })],
               fuzz := some 1, listening := true },
             [Ev.userWrite 7 mEx.toBytes])
    ∧ (User.closeUser { userId := 7, remoteId := some 5 }).1.remoteId = none := by
  refine ⟨rfl, rfl, rfl⟩

/-- C4 (amended): every Reply addressed to a live session unconditionally
assigns `remote_id := packet.src`, overwriting any earlier value, and
`User.close` (run by `_delete_user`) resets `remote_id` to `None`;
`remote_id` is not write-once during a session's lifetime. -/
theorem remoteId_reassigned_by_reply (drain : Nat → WriteOutcome)
    (s : ClientState) (u : User) (src dst : Nat) (m : SocksMsg)
    (hu : getUser s dst = some u) (hd : drain dst ≠ .otherError) :
    handleTunnelPacket drain s (.reply src dst m) =
      .ok (setUser s dst { u with remoteId := some src },
           [Ev.userWrite dst m.toBytes])
    ∧ ∀ v : User, (User.closeUser v).1.remoteId = none := by
  constructor
  · cases hdr : drain dst with
    | ok => simp [handleTunnelPacket, hu, safeWrite, hdr]
    | connectionReset => simp [handleTunnelPacket, hu, safeWrite, hdr]
    | otherError => exact absurd hdr hd
  · intro v; rfl

/-- Witness for the amended C4: a Reply with src = 11 for session 7
overwrites the previously assigned `remote_id` 5. -/
theorem remoteId_reassigned_by_reply_witness :
    handleTunnelPacket (fun _ => .ok) sReplied (.reply 11 7 mEx) =
      .ok (setUser sReplied 7 { userId := 7, remoteId := some 11 },
           [Ev.userWrite 7 mEx.toBytes]) :=
  (remoteId_reassigned_by_reply (fun _ => .ok) sReplied
    { userId := 7, remoteId := some 5 } 11 7 mEx rfl (by decide)).1

/-- C5: the `tunnel_done` callback on the tunnel task exits the process
with status 2 — terminating every session with it — while a negotiation
failure in `start` exits with status 1; the two codes differ. -/
theorem tunnel_death_exit_distinct (s : ClientState) (r1 r2 : Packet)
    (err : String × List Ev) (h : startTunnel s r1 r2 = .error err) :
    (tunnelDone s).1.users = []
    ∧ (tunnelDone s).2 = [Ev.exitProcess 2]
    ∧ start true s r1 r2 = ((processExit 1 s).1, err.2 ++ [Ev.exitProcess 1])
    ∧ start false s r1 r2 = ((processExit 1 s).1, [Ev.exitProcess 1])
    ∧ (2 : Nat) ≠ 1 := by
  refine ⟨rfl, rfl, ?_, rfl, by decide⟩
  simp [start, h, processExit]

/-- Witness for C5: negotiation against a server that never sends fuzz
parameters fails and the process exits with status 1. -/
theorem tunnel_death_exit_distinct_witness :
    start true ClientState.init (.hello 0) (.hello 0) =
      ((processExit 1 ClientState.init).1,
        [Ev.tunnelWrite helloDefault .cipher, Ev.tunnelRead .cipher,
         Ev.tunnelWrite (.handShake 0 none) .cipher, Ev.tunnelRead .cipher]
          ++ [Ev.exitProcess 1]) :=
  (tunnel_death_exit_distinct ClientState.init (.hello 0) (.hello 0) _ rfl).2.2.1

/-- Every event `start_tunnel` puts on the wire — whether the negotiation
succeeds or fails — is a Hello/HandShake exchange, never a user-session
packet. -/
theorem startTunnel_trace_no_session_write (s : ClientState)
    (r1 r2 : Packet) :
    (∀ s2 evs, startTunnel s r1 r2 = .ok (s2, evs) →
        ∀ e ∈ evs, e.isSessionWrite = false)
    ∧ (∀ msg evs, startTunnel s r1 r2 = .error (msg, evs) →
        ∀ e ∈ evs, e.isSessionWrite = false) := by
  constructor
  · intro s2 evs hres e he
    cases h1 : r1.timestampOf with
    | error e1 => simp [startTunnel, h1] at hres
    | ok ts =>
        cases h2 : r2.fuzzOf with
        | error e2 => simp [startTunnel, h1, h2] at hres
        | ok f =>
            simp [startTunnel, h1, h2] at hres
            rw [← hres.2] at he
            simp at he
            rcases he with he | he | he | he <;> subst he <;> rfl
  · intro msg evs hres e he
    cases h1 : r1.timestampOf with
    | error e1 =>
        simp [startTunnel, h1] at hres
        rw [← hres.2] at he
        simp at he
        rcases he with he | he <;> subst he <;> rfl
    | ok ts =>
        cases h2 : r2.fuzzOf with
        | error e2 =>
            simp [startTunnel, h1, h2] at hres
            rw [← hres.2] at he
            simp at he
            rcases he with he | he | he | he <;> subst he <;> rfl
        | ok f => simp [startTunnel, h1, h2] at hres

/-- C6: no Request/Relaying/Close packet is emitted before the handshake
is established: the `start` trace itself contains no session packet; the
listener runs only when `start_tunnel` succeeded and its fuzz parameters
are installed; and in a run whose negotiation fails (exception or dead
connection) the whole client run emits no session packet at all. -/
theorem no_session_packet_before_established
    (netOk : Bool) (td : WriteOutcome) (s : ClientState) (r1 r2 : Packet)
    (scripts : List UserScript) :
    (∀ e ∈ (start netOk s r1 r2).2, e.isSessionWrite = false)
    ∧ ((start netOk s r1 r2).1.listening = true →
        netOk = true ∧ ∃ s2 evs, startTunnel s r1 r2 = .ok (s2, evs) ∧
          (start netOk s r1 r2).1.fuzz = s2.fuzz)
    ∧ (((∃ err, startTunnel s r1 r2 = .error err) ∨ netOk = false) →
        ∀ e ∈ (runClient netOk td s r1 r2 scripts).2, e.isSessionWrite = false) := by
  cases netOk with
  | false =>
      refine ⟨?_, ?_, ?_⟩
      · intro e he
        simp [start, processExit] at he
        subst he; rfl
      · intro hl
        simp [start, processExit] at hl
      · intro _ e he
        simp [runClient, start, processExit] at he
        subst he; rfl
  | true =>
      cases hst : startTunnel s r1 r2 with
      | ok pr =>
          obtain ⟨s2, evs⟩ := pr
          refine ⟨?_, ?_, ?_⟩
          · intro e he
            simp [start, hst] at he
            rcases he with he | he
            · exact (startTunnel_trace_no_session_write s r1 r2).1 s2 evs hst e he
            · subst he; rfl
          · intro _
            exact ⟨rfl, s2, evs, rfl, by simp [start, hst]⟩
          · rintro (⟨err, herr⟩ | hn)
            · simp at herr
            · cases hn
      | error err =>
          obtain ⟨msg, evs⟩ := err
          refine ⟨?_, ?_, ?_⟩
          · intro e he
            simp [start, hst, processExit] at he
            rcases he with he | he
            · exact (startTunnel_trace_no_session_write s r1 r2).2 msg evs hst e he
            · subst he; rfl
          · intro hl
            simp [start, hst, processExit] at hl
          · intro _ e he
            simp [runClient, start, hst, processExit] at he
            rcases he with he | he
            · exact (startTunnel_trace_no_session_write s r1 r2).2 msg evs hst e he
            · subst he; rfl

/-- Witness for C6: in a run whose connection to the server is dead, the
(only) emitted event, the status-1 exit, is not a session packet. -/
theorem no_session_packet_before_established_witness :
    Ev.isSessionWrite (Ev.exitProcess 1) = false :=
  (no_session_packet_before_established false .ok ClientState.init
      (.hello 0) (.hello 0) []).2.2 (Or.inr rfl) (Ev.exitProcess 1) (by decide)

/-- C7: in the `_pipe_user` relaying loop the `AssertionError` from
`assert user.established` is raised exactly when a nonempty local read
happens while `remote_id` is still unset (so the error branch is
unreachable precisely when the Reply arrived before the first local
byte); and every Relaying packet that does get emitted carries the known
`remote_id` as its `dst`. -/
theorem relay_asserts_established (td : WriteOutcome) (s : ClientState)
    (u : User) (r : ReadResult) :
    (pipeUserStep td s u r = .error "AssertionError: user.established" ↔
      r.data ≠ [] ∧ u.remoteId = none)
    ∧ (∀ s2 evs c, pipeUserStep td s u r = .ok (s2, evs, c) →
        ∀ src dst d k, Ev.tunnelWrite (.relaying src dst d) k ∈ evs →
          u.remoteId = some dst) := by
  constructor
  · by_cases hd : r.data = []
    · simp [pipeUserStep, hd, userClosed]
    · cases hr : u.remoteId with
      | none => simp [pipeUserStep, hd, hr]
      | some rid =>
          cases td <;> simp [pipeUserStep, hd, hr, safeWrite]
  · intro s2 evs c h src dst d k hmem
    by_cases hd : r.data = []
    · simp [pipeUserStep, hd, userClosed] at h
      rw [← h.2.1] at hmem
      cases hu : u.established <;> simp [hu] at hmem
    · cases hr : u.remoteId with
      | none => simp [pipeUserStep, hd, hr] at h
      | some rid =>
          cases td with
          | otherError => simp [pipeUserStep, hd, hr, safeWrite] at h
          | ok =>
              simp [pipeUserStep, hd, hr, safeWrite] at h
              rw [← h.2.1] at hmem
              simp at hmem
              rw [hmem.1.2.1]
          | connectionReset =>
              simp [pipeUserStep, hd, hr, safeWrite] at h
              rw [← h.2.1] at hmem
              simp at hmem
              rw [hmem.1.2.1]

/-- Witness for C7: a local byte arriving while `remote_id` is unset
trips the assertion. -/
theorem relay_asserts_established_witness :
    pipeUserStep .ok ClientState.init { userId := 3, remoteId := none }
      (.bytes [1]) = .error "AssertionError: user.established" :=
  (relay_asserts_established .ok ClientState.init
    { userId := 3, remoteId := none } (.bytes [1])).1.mpr (by decide)

/-- C8 counterexample: connection 3 was registered in the session table by
`_accept_user` before the SOCKS request was parsed; the BIND request gets
the COMMAND_NOT_SUPPORTED reply and no Request packet is sent, but the
handler just returns: the `User` record for id 3 is still in the session
table, contradicting the claim that no session exists afterwards. -/
theorem non_connect_keeps_session_counterexample :
    handleUser .ok sAccepted { userId := 3, remoteId := none } (.msg mBind) [] =
      .ok (sAccepted,
        [Ev.userWrite 3 serverGreetingBytes,
         Ev.userWrite 3 repNotSupported.toBytes])
    ∧ getUser sAccepted 3 = some { userId := 3, remoteId := none } := by
  constructor <;> rfl

/-- C8 (amended): a non-CONNECT request yields the COMMAND_NOT_SUPPORTED
reply and no Request packet is ever written to the tunnel, but the handler
merely returns: the `User` record registered at accept time stays in the
session table (the state is returned unchanged) and the connection is not
explicitly closed. -/
theorem non_connect_no_request (td : WriteOutcome) (s : ClientState)
    (u : User) (m : SocksMsg) (rs : List ReadResult)
    (hm : m.code ≠ CMD.CONNECT) :
    handleUser td s u (.msg m) rs =
      .ok (s, [Ev.userWrite u.userId serverGreetingBytes,
               Ev.userWrite u.userId repNotSupported.toBytes])
    ∧ (∀ uid, getUser (acceptUser s uid).1 uid =
        some { userId := uid, remoteId := none }) := by
  constructor
  · simp [handleUser, hm]
  · intro uid
    simp [getUser, acceptUser, List.lookup]

/-- Witness for the amended C8: the BIND request (code 2) on the initial
state. -/
theorem non_connect_no_request_witness :
    handleUser .ok ClientState.init { userId := 9, remoteId := none }
      (.msg mBind) [] =
      .ok (ClientState.init,
        [Ev.userWrite 9 serverGreetingBytes,
         Ev.userWrite 9 repNotSupported.toBytes]) :=
  (non_connect_no_request .ok ClientState.init { userId := 9, remoteId := none }
    mBind [] (by decide)).1

/-- C9: a remote Close for session `pid` runs `_delete_user`, which resets
the shared `User` object's `remote_id` to `None` and aborts its transport;
when the session's relaying loop then observes end-of-stream, the
established check is false — nothing (in particular no Close packet) is
written back to the tunnel. -/
theorem remote_close_not_echoed (drain : Nat → WriteOutcome)
    (td : WriteOutcome) (s : ClientState) (u : User) (pid : Nat)
    (r : ReadResult) (hu : getUser s pid = some u) (hr : r.data = []) :
    handleTunnelPacket drain s (.close pid) =
      .ok (removeUser s u.userId, [Ev.abortTransport u.userId])
    ∧ (u.closeUser.1).remoteId = none
    ∧ pipeUserStep td (removeUser s u.userId) u.closeUser.1 r =
        .ok (removeUser s u.userId, [Ev.abortTransport u.userId], false)
    ∧ (∀ p k, Ev.tunnelWrite p k ∉ [Ev.abortTransport u.userId]) := by
  refine ⟨?_, rfl, ?_, ?_⟩
  · simp [handleTunnelPacket, hu, deleteUser, User.closeUser]
  · simp [pipeUserStep, hr, userClosed, User.closeUser, User.established]
  · intro p k
    simp

/-- Witness for C9: remote Close for the established session 7. -/
theorem remote_close_not_echoed_witness :
    handleTunnelPacket (fun _ => .ok) sEst (.close 7) =
      .ok (removeUser sEst 7, [Ev.abortTransport 7]) :=
  (remote_close_not_echoed (fun _ => .ok) .ok sEst
    { userId := 7, remoteId := some 9 } 7 (.bytes []) rfl rfl).1

/-- C10: `safe_write` catches the `ConnectionResetError` raised while
awaiting the drain and returns normally, so as long as no drain raises
anything else, `_handle_tunnel` never raises: every inbound packet — and
every subsequent packet in the loop — is still processed. -/
theorem reset_does_not_kill_tunnel (drain : Nat → WriteOutcome)
    (hd : ∀ i, drain i ≠ .otherError) :
    (∀ e, safeWrite .connectionReset e = .ok [e])
    ∧ (∀ s p, ∃ out, handleTunnelPacket drain s p = .ok out)
    ∧ (∀ ps s, ∃ out, handleTunnel drain s ps = .ok out) := by
  have hstep : ∀ s p, ∃ out, handleTunnelPacket drain s p = .ok out := by
    intro s p
    cases p with
    | reply src dst msg =>
        cases hg : getUser s dst with
        | none => exact ⟨(s, []), by simp [handleTunnelPacket, hg]⟩
        | some u =>
            cases hdr : drain dst with
            | ok =>
                exact ⟨(setUser s dst { u with remoteId := some src },
                  [Ev.userWrite dst msg.toBytes]),
                  by simp [handleTunnelPacket, hg, safeWrite, hdr]⟩
            | connectionReset =>
                exact ⟨(setUser s dst { u with remoteId := some src },
                  [Ev.userWrite dst msg.toBytes]),
                  by simp [handleTunnelPacket, hg, safeWrite, hdr]⟩
            | otherError => exact absurd hdr (hd dst)
    | relaying src dst payload =>
        cases hg : getUser s dst with
        | none => exact ⟨(s, []), by simp [handleTunnelPacket, hg]⟩
        | some u =>
            cases hdr : drain dst with
            | ok =>
                exact ⟨(s, [Ev.userWrite dst payload]),
                  by simp [handleTunnelPacket, hg, safeWrite, hdr]⟩
            | connectionReset =>
                exact ⟨(s, [Ev.userWrite dst payload]),
                  by simp [handleTunnelPacket, hg, safeWrite, hdr]⟩
            | otherError => exact absurd hdr (hd dst)
    | close src =>
        cases hg : getUser s src with
        | none => exact ⟨(s, []), by simp [handleTunnelPacket, hg]⟩
        | some u =>
            exact ⟨(removeUser s u.userId, [Ev.abortTransport u.userId]),
              by simp [handleTunnelPacket, hg, deleteUser, User.closeUser]⟩
    | hello t => exact ⟨(s, []), rfl⟩
    | handShake t f => exact ⟨(s, []), rfl⟩
    | request src dst msg => exact ⟨(s, []), rfl⟩
  have hloop : ∀ ps s, ∃ out, handleTunnel drain s ps = .ok out := by
    intro ps
    induction ps with
    | nil => intro s; exact ⟨(s, []), rfl⟩
    | cons p rest ih =>
        intro s
        obtain ⟨⟨s2, evs⟩, h1⟩ := hstep s p
        obtain ⟨⟨s3, evs2⟩, h2⟩ := ih s2
        exact ⟨(s3, Ev.tunnelRead (.fuzzParams s.fuzz) :: evs ++ evs2),
          by simp [handleTunnel, h1, h2]⟩
  exact ⟨fun e => rfl, hstep, hloop⟩

/-- Witness for C10: a run of the tunnel loop in which the only session's
local peer has reset still processes both a Relaying delivery to it and a
subsequent Close. -/
theorem reset_does_not_kill_tunnel_witness :
    (match handleTunnel (fun _ => .connectionReset) sEst
        [.relaying 9 7 [1], .close 7] with
     | .ok _ => true
     | .error _ => false) = true := by
  obtain ⟨out, hout⟩ :=
    (reset_does_not_kill_tunnel (fun _ => .connectionReset)
      (fun _ h => WriteOutcome.noConfusion h)).2.2
      [.relaying 9 7 [1], .close 7] sEst
  rw [hout]
